import Mathlib

/-!
Shallow embedding of the marketplace client (listing query builder,
brand to model cascade, listing create submission, detail fetch) together
with the relational read models it queries. Each definition mirrors one
function or state transition of the source; theorems about the claims of
the specification follow the definitions.
-/

/-! ## Exact decimal numbers

The numeric values flowing through the client are decimal strings from
number inputs; the backend columns are `integer` and `decimal(12,2)` and
the range predicates are evaluated server side on exact numerics. We model
these values as exact decimals `mant / 10 ^ exp`, which is faithful for
every decimal literal the forms produce. -/

structure Dec where
  mant : ℤ
  exp : ℕ
deriving DecidableEq

/-- Value comparison of two exact decimals by cross multiplication. -/
def Dec.le (a b : Dec) : Bool :=
  decide (a.mant * (10 : ℤ) ^ b.exp ≤ b.mant * (10 : ℤ) ^ a.exp)

/-- A decimal is zero exactly when its mantissa is zero; this is the
falsiness test JavaScript applies to a number. -/
def Dec.isZero (a : Dec) : Bool := a.mant == 0

/-! ## JavaScript string and number primitives used by the source -/

/-- Leading whitespace removed, as both `trim` and the numeric parsers do. -/
def skipWs (cs : List Char) : List Char := cs.dropWhile Char.isWhitespace

/-- Whitespace removed from both ends: `String.prototype.trim`. -/
def trimChars (cs : List Char) : List Char :=
  ((cs.dropWhile Char.isWhitespace).reverse.dropWhile Char.isWhitespace).reverse

/-- `String.prototype.trim` on a string. -/
def jsTrim (s : String) : String := String.mk (trimChars s.data)

/-- Accumulator for `String.prototype.split` on a single comma separator. -/
def splitCommaAux : List Char → List Char → List (List Char)
  | [], cur => [cur.reverse]
  | c :: rest, cur =>
      if c = ',' then cur.reverse :: splitCommaAux rest [] else splitCommaAux rest (c :: cur)

/-- `s.split(",")`: every comma separates, empty pieces are kept, and the
empty string yields the single piece `""`. -/
def jsSplitComma (s : String) : List String :=
  (splitCommaAux s.data []).map (fun cs => String.mk cs)

/-- Digit list folded into the natural number it denotes. -/
def digitsToNat (ds : List Char) : ℕ :=
  ds.foldl (fun a c => a * 10 + (c.toNat - 48)) 0

/-- Longest leading run of decimal digits, or `none` when there is none:
the core of `parseInt` after sign handling (`none` models `NaN`). -/
def parseIntCore (cs : List Char) : Option ℕ :=
  let ds := cs.takeWhile Char.isDigit
  if ds.isEmpty then none else some (digitsToNat ds)

/-- `parseInt(s)` on the base ten inputs the form produces: leading
whitespace skipped, optional sign, longest digit prefix; `none` is `NaN`. -/
def parseIntJS (s : String) : Option ℤ :=
  match skipWs s.data with
  | '-' :: rest => (parseIntCore rest).map (fun n => -(n : ℤ))
  | '+' :: rest => (parseIntCore rest).map (fun n => (n : ℤ))
  | cs => (parseIntCore cs).map (fun n => (n : ℤ))

/-- Unsigned decimal prefix `digits [. digits]` parsed into an exact
decimal, or `none` when no digit is present: the core of `parseFloat`. -/
def parseDecCore (cs : List Char) : Option Dec :=
  let ds := cs.takeWhile Char.isDigit
  match cs.dropWhile Char.isDigit with
  | '.' :: rest =>
      let fs := rest.takeWhile Char.isDigit
      if ds.isEmpty && fs.isEmpty then none
      else some ⟨(digitsToNat ds : ℤ) * (10 : ℤ) ^ fs.length + (digitsToNat fs : ℤ), fs.length⟩
  | _ => if ds.isEmpty then none else some ⟨(digitsToNat ds : ℤ), 0⟩

/-- `parseFloat(s)` on the decimal inputs the form produces: leading
whitespace skipped, optional sign, decimal prefix; `none` is `NaN`. The
result is the exact decimal value, which is what the backend stores in the
`decimal(12,2)` column after serialization of the parsed number. -/
def parseFloatJS (s : String) : Option Dec :=
  match skipWs s.data with
  | '-' :: rest => (parseDecCore rest).map (fun d => ⟨-d.mant, d.exp⟩)
  | '+' :: rest => parseDecCore rest
  | cs => parseDecCore cs

/-! ## Read models of the queried tables -/

/-- Row of `car_models` as the client reads it. -/
structure CarModel where
  id : String
  brand_id : String
  name : String
deriving DecidableEq

/-- Row of `car_listings` joined with brand and model names, as the home
page reads it. Numeric columns are carried as exact decimals; `created_at`
is a timestamp carried as an integer. -/
structure Listing where
  id : String
  seller_id : String
  brand_id : String
  model_id : String
  title : String
  year : Dec
  price : Dec
  mileage : Dec
  condition : String
  transmission : String
  images : List String
  created_at : ℤ
deriving DecidableEq

/-! ## The listing query builder (`fetchListings` in `Home.tsx`) -/

/-- Sparse filter record of the home page; `none` is an undefined field. -/
structure Filters where
  brand_id : Option String := none
  model_id : Option String := none
  minPrice : Option Dec := none
  maxPrice : Option Dec := none
  minYear : Option Dec := none
  maxYear : Option Dec := none
  minMileage : Option Dec := none
  maxMileage : Option Dec := none
  transmission : Option String := none
  condition : Option String := none
deriving DecidableEq

def emptyFilters : Filters := {}

/-- JavaScript truthiness of an optional string: defined and nonempty. -/
def truthyStr (o : Option String) : Bool :=
  match o with
  | none => false
  | some s => !(s == "")

/-- JavaScript truthiness of an optional number: defined and nonzero. -/
def truthyNum (o : Option Dec) : Bool :=
  match o with
  | none => false
  | some v => !v.isZero

/-- A predicate the query builder may append to the listing query. -/
def ListingPred := Listing → Bool

/-- Equality predicate `query.eq(column, v)` on a string column. -/
def eqStr (field : Listing → String) (v : String) : ListingPred :=
  fun l => field l == v

/-- Range predicate `query.gte(column, v)` on a numeric column. -/
def gteNum (field : Listing → Dec) (v : Dec) : ListingPred :=
  fun l => Dec.le v (field l)

/-- Range predicate `query.lte(column, v)` on a numeric column. -/
def lteNum (field : Listing → Dec) (v : Dec) : ListingPred :=
  fun l => Dec.le (field l) v

/-- Predicates contributed by one optional string filter field, guarded by
the truthiness test `if (filters.field)` of the source. -/
def strFilterPreds (field : Listing → String) (o : Option String) : List ListingPred :=
  match o with
  | none => []
  | some s => if s = "" then [] else [eqStr field s]

/-- Predicates contributed by one optional minimum filter field, guarded by
the truthiness test `if (filters.field)` of the source. -/
def minFilterPreds (field : Listing → Dec) (o : Option Dec) : List ListingPred :=
  match o with
  | none => []
  | some v => if v.isZero then [] else [gteNum field v]

/-- Predicates contributed by one optional maximum filter field, guarded by
the truthiness test `if (filters.field)` of the source. -/
def maxFilterPreds (field : Listing → Dec) (o : Option Dec) : List ListingPred :=
  match o with
  | none => []
  | some v => if v.isZero then [] else [lteNum field v]

/-- The predicate list `fetchListings` appends to the base query, in the
order of the source. -/
def listingQueryPreds (f : Filters) : List ListingPred :=
  strFilterPreds Listing.brand_id f.brand_id ++
  strFilterPreds Listing.model_id f.model_id ++
  minFilterPreds Listing.price f.minPrice ++
  maxFilterPreds Listing.price f.maxPrice ++
  minFilterPreds Listing.year f.minYear ++
  maxFilterPreds Listing.year f.maxYear ++
  minFilterPreds Listing.mileage f.minMileage ++
  maxFilterPreds Listing.mileage f.maxMileage ++
  strFilterPreds Listing.transmission f.transmission ++
  strFilterPreds Listing.condition f.condition

/-- Conjunction of all appended predicates, the WHERE clause of the built
query. -/
def matchesFilters (f : Filters) (l : Listing) : Bool :=
  (listingQueryPreds f).all (fun p => p l)

/-- Newest first: `order(created_at, descending)` of the source. -/
def createdDesc (a b : Listing) : Prop := b.created_at ≤ a.created_at

instance : DecidableRel createdDesc :=
  fun a b => inferInstanceAs (Decidable (b.created_at ≤ a.created_at))

instance : IsTotal Listing createdDesc :=
  ⟨fun a b => le_total b.created_at a.created_at⟩

instance : IsTrans Listing createdDesc :=
  ⟨fun _ _ _ h1 h2 => le_trans h2 h1⟩

/-- Rows of `car_listings` returned by the query `fetchListings` builds:
the rows satisfying every appended predicate, ordered by creation
timestamp descending. -/
def fetchListingsResult (db : List Listing) (f : Filters) : List Listing :=
  List.insertionSort createdDesc (db.filter (fun l => matchesFilters f l))

/-! ## Model fetch (`fetchModels` in both pages) -/

/-- Name order of `order(name)` for model rows, on character lists. -/
def charListLe : List Char → List Char → Bool
  | [], _ => true
  | _ :: _, [] => false
  | a :: as, b :: bs => if a = b then charListLe as bs else decide (a < b)

/-- Name order of `order(name)` as a relation on model rows. -/
def nameLe (a b : CarModel) : Prop := charListLe a.name.data b.name.data = true

instance : DecidableRel nameLe :=
  fun a b => inferInstanceAs (Decidable (charListLe a.name.data b.name.data = true))

/-- `fetchModels(brandId)`: model rows with `brand_id` equal to the chosen
brand, ordered by name. -/
def fetchModels (db : List CarModel) (brandId : String) : List CarModel :=
  List.insertionSort nameLe (db.filter (fun m => m.brand_id == brandId))

/-! ## Home page state and the brand to model cascade (`Home.tsx`) -/

/-- Component state of the home page relevant to filtering. -/
structure HomeState where
  listings : List Listing
  loading : Bool
  models : List CarModel
  filters : Filters
  showFilters : Bool
deriving DecidableEq

/-- The effect on `filters.brand_id`: a truthy brand fetches that brand
models and leaves the rest of the filters alone; otherwise the model list
is emptied and the model filter cleared. -/
def brandEffect (db : List CarModel) (s : HomeState) : HomeState :=
  if truthyStr s.filters.brand_id then
    { s with models := fetchModels db (s.filters.brand_id.getD "") }
  else
    { s with models := [], filters := { s.filters with model_id := none } }

/-- Brand selection in the filter UI: the select maps the empty option to
an undefined field, stores it, and the effect above runs when the stored
brand changed between renders. -/
def selectBrandFilter (db : List CarModel) (s : HomeState) (raw : String) : HomeState :=
  let b : Option String := if raw = "" then none else some raw
  if b = s.filters.brand_id then s
  else brandEffect db { s with filters := { s.filters with brand_id := b } }

/-- Model selection in the filter UI: the select maps the empty option to
an undefined field and stores it; no effect depends on it. -/
def selectModelFilter (s : HomeState) (raw : String) : HomeState :=
  { s with filters := { s.filters with model_id := if raw = "" then none else some raw } }

/-- One settled `fetchListings` call from the perspective of component
state: a successful response replaces the listings, a failed one is only
logged so the previous listings stay; either way loading ends. -/
def fetchListingsStep (s : HomeState) (resp : Except String (List Listing)) : HomeState :=
  match resp with
  | Except.ok rows => { s with listings := rows, loading := false }
  | Except.error _ => { s with loading := false }

/-- The Reset Filters handler, settled: `setFilters({})` updates the
stored record for the next render, while the `fetchListings()` call in the
same handler closes over the filters value of the current render, so the
query it issues is built from the filters as they were before the reset. -/
def resetFiltersHandler (db : List Listing) (s : HomeState) : HomeState :=
  { s with
      filters := emptyFilters,
      listings := fetchListingsResult db s.filters,
      loading := false,
      showFilters := false }

/-! ## Creation form state (`ListingCreate`) -/

/-- Component state of the creation form relevant to the cascade; the
model select is uncontrolled, so no chosen model is tracked in state. -/
structure CreateState where
  selectedBrand : String
  models : List CarModel
deriving DecidableEq

/-- The effect on `selectedBrand`: a nonempty brand fetches that brand
models, an empty one empties the model list. -/
def createBrandEffect (db : List CarModel) (s : CreateState) : CreateState :=
  if s.selectedBrand = "" then { s with models := [] }
  else { s with models := fetchModels db s.selectedBrand }

/-- Brand selection in the creation form; the effect runs when the stored
brand changed between renders. -/
def selectBrandCreate (db : List CarModel) (s : CreateState) (raw : String) : CreateState :=
  if raw = s.selectedBrand then s
  else createBrandEffect db { s with selectedBrand := raw }

/-! ## Listing create submission (`handleSubmit` in `ListingCreate`) -/

/-- The form data of the creation form: lookup from field name to the
submitted string value. -/
abbrev FormData := String → String

/-- `images.split(",").map(trim).filter(truthy)` of the source. -/
def imageArray (images : String) : List String :=
  ((jsSplitComma images).map jsTrim).filter (fun u => u ≠ "")

/-- Modelled from the spec: the image list described there, a single pass
that splits on commas, trims each piece and discards the empty ones while
preserving order. Stated separately so the source pipeline can be compared
against it. -/
def specImageList (s : String) : List String :=
  (jsSplitComma s).filterMap (fun p => if jsTrim p = "" then none else some (jsTrim p))

/-- The row `handleSubmit` inserts into `car_listings`: the seller
reference is the authenticated user id, every other field is read from the
form, with `parseInt` and `parseFloat` coercions as in the source (`none`
models `NaN`). -/
structure ListingInsert where
  seller_id : String
  brand_id : String
  model_id : String
  title : String
  description : String
  year : Option ℤ
  price : Option Dec
  mileage : Option ℤ
  condition : String
  transmission : String
  color : String
  vin : String
  images : List String
deriving DecidableEq

def buildInsertRow (userId : String) (form : FormData) : ListingInsert :=
  { seller_id := userId,
    brand_id := form "brand",
    model_id := form "model",
    title := form "title",
    description := form "description",
    year := parseIntJS (form "year"),
    price := parseFloatJS (form "price"),
    mileage := parseIntJS (form "mileage"),
    condition := form "condition",
    transmission := form "transmission",
    color := form "color",
    vin := form "vin",
    images := imageArray (form "images") }

/-- Observable outcome of one submission: the insert request issued if
any, the navigation performed if any, and the inline error message if
any. -/
structure SubmitResult where
  insertIssued : Option ListingInsert
  navigatedTo : Option String
  errorMsg : Option String
deriving DecidableEq

/-- `handleSubmit`, settled: without an authenticated user it only
redirects to the login route; with one it issues the insert built from the
form, then navigates home on success or surfaces the message of the
failure (as rendered by the catch clause) without navigating. -/
def handleSubmit (user : Option String) (form : FormData)
    (insertOutcome : Except String Unit) : SubmitResult :=
  match user with
  | none => ⟨none, some "/login", none⟩
  | some uid =>
      match insertOutcome with
      | Except.ok _ => ⟨some (buildInsertRow uid form), some "/", none⟩
      | Except.error e => ⟨some (buildInsertRow uid form), none, some e⟩

/-! ## Listing detail fetch (`fetchListing` in `ListingDetails`) -/

/-- Component state of the detail page. -/
structure DetailState where
  listing : Option Listing
  error : Option String
  loading : Bool
deriving DecidableEq

def initialDetailState : DetailState := ⟨none, none, true⟩

/-- What the detail page renders, in the order of its early returns. -/
inductive DetailView where
  | loadingView
  | errorView (msg : String)
  | notFoundView
  | detailView (l : Listing)
deriving DecidableEq

/-- The single row read `eq(id, listingId).single()`: per the client
library contract, `single()` produces an error value (code PGRST116)
whenever the filtered result does not hold exactly one row, so a missing
id comes back as an error, not as a null row. -/
def singleResult (rows : List Listing) : Except String Listing :=
  match rows with
  | [l] => Except.ok l
  | _ => Except.error "PGRST116"

/-- `fetchListing`, settled: a returned row is stored; an error result is
thrown, caught, and stored as the displayed message (the source shows
the caught message, here carried through unchanged). -/
def fetchListing (db : List Listing) (listingId : String) (s : DetailState) : DetailState :=
  match singleResult (db.filter (fun l => l.id == listingId)) with
  | Except.ok l => { listing := some l, error := s.error, loading := false }
  | Except.error e => { listing := s.listing, error := some e, loading := false }

/-- The render branches of the detail page, in source order. -/
def renderDetail (s : DetailState) : DetailView :=
  if s.loading then DetailView.loadingView
  else
    match s.error with
    | some e => DetailView.errorView e
    | none =>
        match s.listing with
        | none => DetailView.notFoundView
        | some l => DetailView.detailView l

/-! ## Reading of the amended filter semantics, per field -/

/-- The predicate a present, truthy optional string field imposes. -/
def StrPredHolds (o : Option String) (x : String) : Prop :=
  ∀ s, o = some s → s ≠ "" → x = s

/-- The predicate a present, truthy optional minimum field imposes. -/
def MinPredHolds (o : Option Dec) (x : Dec) : Prop :=
  ∀ v, o = some v → v.isZero = false → Dec.le v x = true

/-- The predicate a present, truthy optional maximum field imposes. -/
def MaxPredHolds (o : Option Dec) (x : Dec) : Prop :=
  ∀ v, o = some v → v.isZero = false → Dec.le x v = true

/-! ## Concrete instances used by counterexamples and witnesses -/

/-- A listing priced 100 with year 2020 and mileage 50000. -/
def listing0 : Listing :=
  ⟨"l0", "s0", "b1", "m1", "car", ⟨2020, 0⟩, ⟨100, 0⟩, ⟨50000, 0⟩, "used", "manual", [], 0⟩

/-- A filter set whose only present field is a maximum price of zero. -/
def maxPriceZeroFilters : Filters := { maxPrice := some ⟨0, 0⟩ }

/-- A filter set whose only present field is a maximum price of one. -/
def maxPriceOneFilters : Filters := { maxPrice := some ⟨1, 0⟩ }

/-- A home state holding the maximum price one filter. -/
def homeState0 : HomeState := ⟨[listing0], false, [], maxPriceOneFilters, true⟩

/-- An initial home state with nothing selected. -/
def homeStateInit : HomeState := ⟨[], true, [], emptyFilters, false⟩

/-- Two model rows under two different brands. -/
def modelsDb0 : List CarModel := [⟨"m1", "b1", "A3"⟩, ⟨"m2", "b2", "Golf"⟩]

/-- The creation form values of the numeric scenario. -/
def scenarioForm : FormData := fun k =>
  if k = "title" then "BMW 3 Series"
  else if k = "brand" then "b1"
  else if k = "model" then "m1"
  else if k = "year" then "2021"
  else if k = "price" then "15999.99"
  else if k = "mileage" then "42000"
  else if k = "condition" then "used"
  else if k = "transmission" then "manual"
  else if k = "color" then "blue"
  else if k = "vin" then "V1"
  else if k = "description" then "nice"
  else if k = "images" then "http://a,  http://b ,"
  else ""

/-- A creation form choosing model m1 under brand b1. -/
def cascadeForm : FormData := fun k =>
  if k = "brand" then "b1"
  else if k = "model" then "m1"
  else ""

/-! ## Helper lemmas on the per field predicate chunks -/

theorem strFilterPreds_all (fld : Listing → String) (o : Option String) (l : Listing) :
    ((strFilterPreds fld o).all (fun p => p l) = true) ↔ StrPredHolds o (fld l) := by
  cases o with
  | none => simp [strFilterPreds, StrPredHolds]
  | some s =>
      by_cases hs : s = ""
      · simp [strFilterPreds, StrPredHolds, hs]
      · simp [strFilterPreds, StrPredHolds, hs, eqStr]

theorem minFilterPreds_all (fld : Listing → Dec) (o : Option Dec) (l : Listing) :
    ((minFilterPreds fld o).all (fun p => p l) = true) ↔ MinPredHolds o (fld l) := by
  cases o with
  | none => simp [minFilterPreds, MinPredHolds]
  | some v =>
      by_cases hv : v.isZero = true
      · simp [minFilterPreds, MinPredHolds, hv]
      · simp [minFilterPreds, MinPredHolds, gteNum, hv]

theorem maxFilterPreds_all (fld : Listing → Dec) (o : Option Dec) (l : Listing) :
    ((maxFilterPreds fld o).all (fun p => p l) = true) ↔ MaxPredHolds o (fld l) := by
  cases o with
  | none => simp [maxFilterPreds, MaxPredHolds]
  | some v =>
      by_cases hv : v.isZero = true
      · simp [maxFilterPreds, MaxPredHolds, hv]
      · simp [maxFilterPreds, MaxPredHolds, lteNum, hv]

/-! ## Claim theorems -/

/-- C1, counterexample: a filter set whose maximum price field is present
with value zero contributes no predicate, although the claimed `<=`
predicate would exclude the listing priced 100; the query returns the
listing anyway, so a present field with value zero is treated as absent. -/
theorem claim1_zero_value_cex :
    matchesFilters maxPriceZeroFilters listing0 = true ∧
    Dec.le listing0.price ⟨0, 0⟩ = false ∧
    fetchListingsResult [listing0] maxPriceZeroFilters = [listing0] := by
  decide

/-- C1 (amended): each optional field that is present with a truthy value
(nonempty string, nonzero number) contributes exactly one predicate,
equality for brand, model, transmission and condition, `>=` for the
minima, `<=` for the maxima; the predicates compose conjunctively; an
absent field, and equally a present field whose value is zero or the empty
string, contributes no predicate; the empty filter set applies no
predicate and returns all listings ordered by creation timestamp
descending. -/
theorem claim1_filter_builder :
    (∀ (f : Filters) (l : Listing),
        matchesFilters f l = true ↔
          (StrPredHolds f.brand_id l.brand_id ∧
           StrPredHolds f.model_id l.model_id ∧
           MinPredHolds f.minPrice l.price ∧
           MaxPredHolds f.maxPrice l.price ∧
           MinPredHolds f.minYear l.year ∧
           MaxPredHolds f.maxYear l.year ∧
           MinPredHolds f.minMileage l.mileage ∧
           MaxPredHolds f.maxMileage l.mileage ∧
           StrPredHolds f.transmission l.transmission ∧
           StrPredHolds f.condition l.condition)) ∧
    (∀ (fld : Listing → String) (o : Option String),
        (strFilterPreds fld o).length = if truthyStr o then 1 else 0) ∧
    (∀ (fld : Listing → Dec) (o : Option Dec),
        (minFilterPreds fld o).length = if truthyNum o then 1 else 0) ∧
    (∀ (fld : Listing → Dec) (o : Option Dec),
        (maxFilterPreds fld o).length = if truthyNum o then 1 else 0) ∧
    listingQueryPreds emptyFilters = [] ∧
    (∀ db : List Listing,
        (fetchListingsResult db emptyFilters).Perm db ∧
        List.Sorted createdDesc (fetchListingsResult db emptyFilters)) := by
  refine ⟨?_, ?_, ?_, ?_, rfl, ?_⟩
  · intro f l
    simp only [matchesFilters, listingQueryPreds, List.all_append, Bool.and_eq_true,
      strFilterPreds_all, minFilterPreds_all, maxFilterPreds_all]
    tauto
  · intro fld o
    cases o with
    | none => rfl
    | some s => by_cases hs : s = "" <;> simp [strFilterPreds, truthyStr, hs]
  · intro fld o
    cases o with
    | none => rfl
    | some v => by_cases hv : v.isZero = true <;> simp [minFilterPreds, truthyNum, hv]
  · intro fld o
    cases o with
    | none => rfl
    | some v => by_cases hv : v.isZero = true <;> simp [maxFilterPreds, truthyNum, hv]
  · intro db
    have hfil : db.filter (fun l => matchesFilters emptyFilters l) = db := by
      rw [show (fun l => matchesFilters emptyFilters l) = (fun _ : Listing => true) from rfl]
      exact List.filter_true db
    constructor
    · show (List.insertionSort createdDesc (db.filter fun l => matchesFilters emptyFilters l)).Perm db
      rw [hfil]
      exact List.perm_insertionSort createdDesc db
    · exact List.sorted_insertionSort createdDesc _

/-- C2, counterexample: in the filter UI, selecting brand b1, then model
m1, then brand b2 leaves the previously selected model m1 stored in the
filter record instead of clearing it. -/
theorem claim2_brand_switch_cex :
    (selectBrandFilter modelsDb0
        (selectModelFilter (selectBrandFilter modelsDb0 homeStateInit "b1") "m1")
        "b2").filters.model_id = some "m1" ∧
    (selectBrandFilter modelsDb0
        (selectModelFilter (selectBrandFilter modelsDb0 homeStateInit "b1") "m1")
        "b2").filters.model_id ≠ none := by
  decide

/-- C2 (amended): in the filter UI, selecting a brand different from the
stored one fetches the models of the new brand but leaves any previously
selected model filter unchanged; only clearing the brand empties the model
list and clears the selected model. In the creation form, which tracks no
selected model in state, selecting a different brand fetches the models of
the new brand and selecting no brand empties the model list. -/
theorem claim2_cascade :
    (∀ (db : List CarModel) (s : HomeState) (raw : String),
        raw ≠ "" → some raw ≠ s.filters.brand_id →
        (selectBrandFilter db s raw).filters.brand_id = some raw ∧
        (selectBrandFilter db s raw).models = fetchModels db raw ∧
        (selectBrandFilter db s raw).filters.model_id = s.filters.model_id) ∧
    (∀ (db : List CarModel) (s : HomeState),
        s.filters.brand_id ≠ none →
        (selectBrandFilter db s "").filters.brand_id = none ∧
        (selectBrandFilter db s "").models = [] ∧
        (selectBrandFilter db s "").filters.model_id = none) ∧
    (∀ (db : List CarModel) (s : CreateState) (raw : String),
        raw ≠ s.selectedBrand →
        (selectBrandCreate db s raw).models =
          (if raw = "" then [] else fetchModels db raw)) := by
  refine ⟨?_, ?_, ?_⟩
  · intro db s raw h1 h2
    simp [selectBrandFilter, brandEffect, truthyStr, h1, h2]
  · intro db s h
    simp [selectBrandFilter, brandEffect, truthyStr, Ne.symm h]
  · intro db s raw h
    simp only [selectBrandCreate]
    rw [if_neg h]
    by_cases hr : raw = "" <;> simp [createBrandEffect, hr]

/-- C2 witness: the amended cascade rules evaluated on the two brand
database, from the initial filter state and the initial creation state. -/
theorem claim2_cascade_witness :
    (selectBrandFilter modelsDb0 homeStateInit "b1").models = fetchModels modelsDb0 "b1" ∧
    (selectBrandFilter modelsDb0 (selectBrandFilter modelsDb0 homeStateInit "b1") "").filters.model_id = none ∧
    (selectBrandCreate modelsDb0 ⟨"", []⟩ "b1").models = fetchModels modelsDb0 "b1" := by
  refine ⟨(claim2_cascade.1 modelsDb0 homeStateInit "b1" (by decide) (by decide)).2.1,
    (claim2_cascade.2.1 modelsDb0 (selectBrandFilter modelsDb0 homeStateInit "b1") ?_).2.2, ?_⟩
  · decide
  · have h := claim2_cascade.2.2 modelsDb0 ⟨"", []⟩ "b1" (by decide)
    rw [h, if_neg (by decide)]

/-- C3 (confirmed): a submission with no authenticated identity issues no
insert and redirects to the login view, whatever the form holds and
whatever the backend would have answered; with an identity present, the
insert built from the form is issued. -/
theorem claim3_auth_gate :
    (∀ (form : FormData) (ins : Except String Unit),
        handleSubmit none form ins =
          ⟨none, some "/login", none⟩) ∧
    (∀ (uid : String) (form : FormData) (ins : Except String Unit),
        (handleSubmit (some uid) form ins).insertIssued = some (buildInsertRow uid form)) := by
  refine ⟨fun form ins => rfl, fun uid form ins => ?_⟩
  cases ins <;> rfl

/-- C4 (code bug): fetching an id that matches no listing surfaces the
generic error view, not the distinct not found view, because the single
row read yields an error value for zero rows, which the catch clause
stores as the displayed message; the not found render branch is therefore
never reached from a completed fetch. Evaluated at the failing input of an
empty table and the id missing. -/
theorem claim4_notfound_bug :
    renderDetail (fetchListing [] "missing" initialDetailState) =
      DetailView.errorView "PGRST116" ∧
    renderDetail (fetchListing [] "missing" initialDetailState) ≠
      DetailView.notFoundView := by
  decide

/-- C5 (confirmed): the submitted image list is the input split on commas,
each piece trimmed, empty pieces discarded, order preserved; in particular
the quoted example yields the two urls, and inputs that are empty or only
separators and whitespace yield the empty list. -/
theorem claim5_image_split :
    (∀ s : String, imageArray s = specImageList s) ∧
    imageArray "http://a,  http://b ," = ["http://a", "http://b"] ∧
    imageArray "" = [] ∧
    imageArray " , ,, " = [] := by
  refine ⟨?_, by decide, by decide, by decide⟩
  intro s
  show ((jsSplitComma s).map jsTrim).filter (fun u => u ≠ "") =
    (jsSplitComma s).filterMap (fun p => if jsTrim p = "" then none else some (jsTrim p))
  generalize jsSplitComma s = ps
  induction ps with
  | nil => rfl
  | cons a as ih =>
      by_cases h : jsTrim a = "" <;>
        simp [List.filter_cons, List.filterMap_cons, h] <;>
        simpa using ih

/-- C6 (confirmed): the seller reference of the insert request equals the
authenticated identity for every form, and it does not depend on the form
at all: two submissions by the same identity with arbitrary different form
contents carry the same seller reference. -/
theorem claim6_seller_scoped :
    (∀ (uid : String) (form : FormData), (buildInsertRow uid form).seller_id = uid) ∧
    (∀ (uid : String) (f1 f2 : FormData),
        (buildInsertRow uid f1).seller_id = (buildInsertRow uid f2).seller_id) :=
  ⟨fun _ _ => rfl, fun _ _ _ => rfl⟩

/-- C7 (confirmed): the scenario submission with year "2021", price
"15999.99", mileage "42000", condition "used", transmission "manual"
produces a row with the integer 2021, the exact two fraction digit decimal
15999.99 (mantissa 1599999, exponent 2), the integer 42000, and the two
enumerated strings. -/
theorem claim7_numeric_scenario :
    (buildInsertRow "seller-1" scenarioForm).year = some (2021 : ℤ) ∧
    (buildInsertRow "seller-1" scenarioForm).price = some ⟨1599999, 2⟩ ∧
    (buildInsertRow "seller-1" scenarioForm).mileage = some (42000 : ℤ) ∧
    (buildInsertRow "seller-1" scenarioForm).condition = "used" ∧
    (buildInsertRow "seller-1" scenarioForm).transmission = "manual" := by
  decide

/-- C8 (confirmed): a failed listing fetch ends loading and changes
nothing else, so the previously displayed listings stay; a failed create
submission surfaces the caught message and performs no navigation. -/
theorem claim8_failure_preserves_state :
    (∀ (s : HomeState) (e : String),
        (fetchListingsStep s (Except.error e)).listings = s.listings ∧
        fetchListingsStep s (Except.error e) = { s with loading := false }) ∧
    (∀ (uid : String) (form : FormData) (e : String),
        (handleSubmit (some uid) form (Except.error e)).navigatedTo = none ∧
        (handleSubmit (some uid) form (Except.error e)).errorMsg = some e) :=
  ⟨fun _ _ => ⟨rfl, rfl⟩, fun _ _ _ => ⟨rfl, rfl⟩⟩

/-- C9 (confirmed): the model options fetched for a brand all belong to
that brand, and consequently, when the submitted model id is one of the
options offered for the submitted brand and model ids are unique, the row
matching the inserted model id belongs to the inserted brand id. -/
theorem claim9_model_scoped :
    (∀ (db : List CarModel) (b : String) (m : CarModel),
        m ∈ fetchModels db b → m.brand_id = b) ∧
    (∀ (db : List CarModel) (uid : String) (form : FormData),
        (db.map CarModel.id).Nodup →
        (∃ m, m ∈ fetchModels db (form "brand") ∧ m.id = form "model") →
        ∀ m, m ∈ db → m.id = (buildInsertRow uid form).model_id →
          m.brand_id = (buildInsertRow uid form).brand_id) := by
  refine ⟨?_, ?_⟩
  · intro db b m hm
    have hm2 : m ∈ db.filter (fun x => x.brand_id == b) :=
      (List.perm_insertionSort nameLe _).mem_iff.mp hm
    exact eq_of_beq (List.mem_filter.mp hm2).2
  · intro db uid form hnd hex m hm hid
    obtain ⟨m0, hm0, hid0⟩ := hex
    have hm0f : m0 ∈ db.filter (fun x => x.brand_id == form "brand") :=
      (List.perm_insertionSort nameLe _).mem_iff.mp hm0
    have hm0db : m0 ∈ db := (List.mem_filter.mp hm0f).1
    have hm0b : m0.brand_id = form "brand" := eq_of_beq (List.mem_filter.mp hm0f).2
    have hids : m.id = m0.id := by rw [hid, hid0]; rfl
    have hmm : m = m0 := List.inj_on_of_nodup_map hnd hm hm0db hids
    rw [hmm, hm0b]
    rfl

/-- C9 witness: the scoping theorem evaluated on the two model database,
the creation form choosing model m1 under brand b1, and the row m1. -/
theorem claim9_model_scoped_witness :
    (⟨"m1", "b1", "A3"⟩ : CarModel).brand_id = (buildInsertRow "u1" cascadeForm).brand_id :=
  claim9_model_scoped.2 modelsDb0 "u1" cascadeForm (by decide)
    ⟨⟨"m1", "b1", "A3"⟩, by decide, by decide⟩
    ⟨"m1", "b1", "A3"⟩ (by decide) (by decide)

/-- C10 (confirmed): the Reset Filters handler stores the empty filter
record, yet the fetch it issues in the same handler is built from the
filters captured before the reset; at the concrete state whose maximum
price filter is one, the fetch returns nothing although a fetch under the
stored, reset record would return the listing, so reset then fetch is not
equivalent to fetching with the empty filter set. -/
theorem claim10_reset_stale_closure :
    (∀ (db : List Listing) (s : HomeState),
        (resetFiltersHandler db s).filters = emptyFilters ∧
        (resetFiltersHandler db s).listings = fetchListingsResult db s.filters) ∧
    (resetFiltersHandler [listing0] homeState0).listings = [] ∧
    fetchListingsResult [listing0] emptyFilters = [listing0] ∧
    (resetFiltersHandler [listing0] homeState0).listings ≠
      fetchListingsResult [listing0] ((resetFiltersHandler [listing0] homeState0).filters) :=
  ⟨fun _ _ => ⟨rfl, rfl⟩, by decide, by decide, by decide⟩
